import Mathlib

/-!
Verification of the RAG (retrieval-augmented generation) question-answering
pipeline: a shallow embedding of `app.py` (chunk indexing, retrieval, prompt
assembly, generation fallback) and `api_server.py` (readiness gate, HTTP
dispatch), with theorems about initialization idempotence, caching, error
handling, readiness monotonicity and mutual exclusion.
-/

namespace RagApp

/-! ## Configuration constants (app.py) -/

def CHUNK_SIZE : Nat := 700

def CHUNK_OVERLAP : Nat := 70

def N_RESULTS_RETRIEVAL : Nat := 10

def GEMINI_MODEL : String := "gemini-1.5-flash"

def GEMINI_TEMPERATURE : ℚ := 3 / 10

def COLLECTION_NAME : String := "pride_and_prejudice_knowledge"

/-! ## Vector store collection (ChromaDB adapter)

A `Collection` is modelled by its stored entries: a list of (id, document)
pairs.  `Collection.count` is `collection.count()`, `Collection.add` is
`collection.add(documents=..., ids=...)`, and `Collection.query` is the
read-only nearest-neighbour call `collection.query(query_texts=[q],
n_results=n)`: the ranking itself is owned by the external store and
embedding provider, so it is a parameter (`oracle`); the call reads the
collection and returns the per-query-text document lists unchanged. -/

structure Collection where
  docs : List (String × String)
deriving DecidableEq

def Collection.count (c : Collection) : Nat := c.docs.length

def Collection.add (c : Collection) (documents : List String) (ids : List String) :
    Collection :=
  ⟨c.docs ++ ids.zip documents⟩

def Collection.query (c : Collection)
    (oracle : String → Nat → List (String × String) → List (List String))
    (q : String) (n : Nat) : List (List String) × Collection :=
  (oracle q n c.docs, c)

/-! ## Indexing step of `get_chroma_collection` (app.py lines 67-80)

`document_chunks` stands for the result of `load_and_chunk_document` (an
external file read plus the LangChain splitter).  The body adds the chunks
with positional ids `doc_<i>` only when the collection count is zero and the
chunk list is non-empty. -/

def chunkIds (document_chunks : List String) : List String :=
  (List.range document_chunks.length).map (fun i => "doc_" ++ Nat.repr i)

def indexStep (document_chunks : List String) (collection : Collection) : Collection :=
  if collection.count = 0 then
    if document_chunks.isEmpty then collection
    else collection.add document_chunks (chunkIds document_chunks)
  else collection

/-! ## Module-level caches (app.py `_chroma_collection`, `_gemini_model`)

`AppCache` models the two module-level globals.  The counters record how
many times the corresponding initialization branch (opening the persistent
store and running the zero-count indexing decision, resp. constructing the
Gemini model handle) has executed, so that "at most once" is observable. -/

structure GeminiModel where
  modelName : String
deriving DecidableEq

structure AppCache where
  chromaCollection : Option Collection
  geminiModel : Option GeminiModel
  chromaInits : Nat
  modelInits : Nat
deriving DecidableEq

/-- `get_chroma_collection` (app.py lines 55-82): on a cache miss it opens
the persistent client and gets-or-creates the collection (`openStore`,
external), runs the zero-count indexing step, stores the handle in the
module-level cache and bumps the init counter; on a hit it returns the
cached handle unchanged. -/
def get_chroma_collection (openStore : Unit → Collection)
    (document_chunks : List String) (s : AppCache) : Collection × AppCache :=
  match s.chromaCollection with
  | some c => (c, s)
  | none =>
      let c := indexStep document_chunks (openStore ())
      (c, { s with chromaCollection := some c, chromaInits := s.chromaInits + 1 })

/-- `get_gemini_model` (app.py lines 95-101): cached construction of the
model handle. -/
def get_gemini_model (s : AppCache) : GeminiModel × AppCache :=
  match s.geminiModel with
  | some m => (m, s)
  | none =>
      let m : GeminiModel := ⟨GEMINI_MODEL⟩
      (m, { s with geminiModel := some m, modelInits := s.modelInits + 1 })

/-! ## Retrieval (app.py lines 85-92)

`queryRes` is the outcome of `collection.query(...)`: `Except.error` models
an exception raised by the store or the embedding provider at query time
(there is no try/except around this call in the source), `Except.ok res`
carries `results['documents']`, one document list per query text.  The
source returns `results['documents'][0] if results['documents'] else []`. -/

def firstQueryDocuments (res : List (List String)) : List String :=
  match res with
  | [] => []
  | d :: _ => d

def retrieve_relevant_documents (queryRes : Except String (List (List String))) :
    Except String (List String) :=
  match queryRes with
  | .error e => .error e
  | .ok res => .ok (firstQueryDocuments res)

/-! ## Prompt assembly (app.py lines 125-141) -/

def noContextMessage : String :=
  "No specific context was provided from the knowledge base."

def apologyMessage : String :=
  "Sorry, I encountered an error while generating the response."

/-- `context = "\n".join(retrieved_docs) if retrieved_docs else ""`. -/
def ragContext (retrieved_docs : List String) : String :=
  if retrieved_docs.isEmpty then "" else String.intercalate "\n" retrieved_docs

def promptHead : String :=
  "\n    You are an AI assistant tasked with answering questions based on the provided text.\n    Please use the context below to answer the question thoroughly and accurately.\n    If the answer is not available or cannot be reasonably inferred from the provided context,\n    you must state clearly and concisely: \"I cannot find the answer to that question in the provided information.\"\n    Do not introduce any information that is not present in the context.\n\n    Context:\n    "

def promptMid : String := "\n\n    Question: "

def promptTail : String := "\n\n    Answer:\n    "

/-- The f-string template: the context slot holds
`context if context else "No specific context was provided from the knowledge base."`. -/
def buildPrompt (context query : String) : String :=
  promptHead ++ (if context = "" then noContextMessage else context)
    ++ promptMid ++ query ++ promptTail

/-! ## Main RAG query function (app.py lines 104-157)

`generate` models `model.generate_content(...)` followed by `response.text`
(the only code under the `try`): `Except.error` is a raised exception, which
the source converts to the fixed apology string.  A retrieval error is not
inside the `try` and therefore propagates out of the function, which the
outer `Except` records. -/

def ask_rag_question (generate : String → Except String String)
    (queryRes : Except String (List (List String))) (query : String) :
    Except String String :=
  match retrieve_relevant_documents queryRes with
  | .error e => .error e
  | .ok retrieved_docs =>
      let context := ragContext retrieved_docs
      let prompt := buildPrompt context query
      match generate prompt with
      | .ok text => .ok text
      | .error _ => .ok apologyMessage

/-- State-threaded form of `ask_rag_question`, used to express that the
answer path only reads the collection: the collection handle obtained from
the cache is passed through `Collection.query` (the sole collection
operation on this path in the source) and returned. -/
def ask_rag_question_state
    (oracle : String → Nat → List (String × String) → List (List String))
    (generate : String → Except String String) (query : String) (c : Collection) :
    String × Collection :=
  let qr := c.query oracle query N_RESULTS_RETRIEVAL
  let retrieved_docs := firstQueryDocuments qr.1
  let context := ragContext retrieved_docs
  let prompt := buildPrompt context query
  (match generate prompt with
   | .ok text => text
   | .error _ => apologyMessage, qr.2)

/-- A sequence of answer calls, threading the collection state. -/
def serve_queries
    (oracle : String → Nat → List (String × String) → List (List String))
    (generate : String → Except String String) (queries : List String)
    (c : Collection) : Collection :=
  queries.foldl (fun cc q => (ask_rag_question_state oracle generate q cc).2) c

/-! ## API server model (api_server.py)

`ServerState` holds the process-wide globals: the `rag_system_ready` flag,
the holder of `rag_init_lock` (`lockHolder`), how many times the guarded
initialization body (the `get_chroma_collection()` call) has executed
(`initCount`), the program counters of the spawned initialization threads
(`threads`), and whether `os._exit(1)` has been called (`exited`).

`ServerStep` has one constructor per atomic action of the source:
spawning an initialization thread (`threading.Thread(...).start()` from
`check_rag_status` or from the main block), acquiring the lock, executing
the guarded body when the flag is down (success sets the flag, failure
calls `os._exit(1)`), skipping the body when the flag is already up, and
serving a request once ready. -/

inductive TPC where
  | start
  | inLock
  | done
deriving DecidableEq

structure ServerState where
  rag_system_ready : Bool
  lockHolder : Option Nat
  initCount : Nat
  threads : List TPC
  exited : Bool
deriving DecidableEq

inductive ServerStep : ServerState → ServerState → Prop where
  | spawn (s : ServerState) (hr : s.rag_system_ready = false) (hex : s.exited = false) :
      ServerStep s ⟨s.rag_system_ready, s.lockHolder, s.initCount,
        s.threads ++ [TPC.start], s.exited⟩
  | acquire (s : ServerState) (t : Nat) (h1 : s.threads[t]? = some TPC.start)
      (h2 : s.lockHolder = none) (hex : s.exited = false) :
      ServerStep s ⟨s.rag_system_ready, some t, s.initCount,
        s.threads.set t TPC.inLock, s.exited⟩
  | runInit (s : ServerState) (t : Nat) (h1 : s.threads[t]? = some TPC.inLock)
      (h2 : s.lockHolder = some t) (h3 : s.rag_system_ready = false)
      (hex : s.exited = false) :
      ServerStep s ⟨true, none, s.initCount + 1, s.threads.set t TPC.done, s.exited⟩
  | runInitFail (s : ServerState) (t : Nat) (h1 : s.threads[t]? = some TPC.inLock)
      (h2 : s.lockHolder = some t) (h3 : s.rag_system_ready = false)
      (hex : s.exited = false) :
      ServerStep s ⟨s.rag_system_ready, s.lockHolder, s.initCount, s.threads, true⟩
  | skipInit (s : ServerState) (t : Nat) (h1 : s.threads[t]? = some TPC.inLock)
      (h2 : s.lockHolder = some t) (h3 : s.rag_system_ready = true)
      (hex : s.exited = false) :
      ServerStep s ⟨true, none, s.initCount, s.threads.set t TPC.done, s.exited⟩
  | serve (s : ServerState) (hr : s.rag_system_ready = true) (hex : s.exited = false) :
      ServerStep s s

/-- The state at process start: flag down, lock free, no thread spawned yet. -/
def serverInit : ServerState := ⟨false, none, 0, [], false⟩

def ServerReachable (s : ServerState) : Prop :=
  Relation.ReflTransGen ServerStep serverInit s

/-! ## Functional model of `initialize_rag_system` (api_server.py lines 14-29)

`acquireResult` is the outcome of the `get_chroma_collection()` call;
on failure the source calls `os._exit(1)`. -/

inductive InitResult where
  | finished (rag_system_ready : Bool)
  | processExit (code : Nat) (rag_system_ready : Bool)
deriving DecidableEq

def initialize_rag_system (rag_system_ready : Bool)
    (acquireResult : Except String Collection) : InitResult :=
  if rag_system_ready then .finished rag_system_ready
  else
    match acquireResult with
    | .ok _ => .finished true
    | .error _ => .processExit 1 rag_system_ready

/-! ## HTTP dispatch model (api_server.py lines 32-67)

Flask runs `check_rag_status` as a `before_request` hook for every route;
when it returns a response, that response is sent and the route handler is
never invoked. -/

inductive HttpRequest where
  | askReq (isJson : Bool) (queryParam : Option String)
  | statusReq
deriving DecidableEq

inductive ResponseBody where
  | messageOnly (message : String)
  | statusMessage (statusField : String) (message : String)
  | answerBody (answer : String)
  | errorBody (error : String)
deriving DecidableEq

structure HttpResponse where
  code : Nat
  body : ResponseBody
deriving DecidableEq

/-- The `before_request` hook: returns `some` 503 response while the flag is
down (after possibly spawning the background initialization thread, which
does not affect the response), `none` (proceed to the route handler)
otherwise. -/
def check_rag_status (rag_system_ready : Bool) : Option HttpResponse :=
  if rag_system_ready then none
  else some ⟨503, .messageOnly "RAG system is initializing. Please try again in a moment."⟩

/-- The `/ask` route handler (api_server.py lines 44-59); `answerFn` is
`ask_rag_question`.  `queryParam = none` models an absent key and
`some ""` a falsy value, both rejected by `if not query`. -/
def askHandler (answerFn : String → String) (isJson : Bool)
    (queryParam : Option String) : HttpResponse :=
  if isJson = false then ⟨400, .errorBody "Request must be JSON"⟩
  else
    match queryParam with
    | none => ⟨400, .errorBody "Missing query parameter"⟩
    | some q =>
        if q = "" then ⟨400, .errorBody "Missing query parameter"⟩
        else ⟨200, .answerBody (answerFn q)⟩

/-- The `/status` route handler (api_server.py lines 61-67). -/
def statusHandler (rag_system_ready : Bool) : HttpResponse :=
  if rag_system_ready then
    ⟨200, .statusMessage "ready" "RAG system is fully initialized and operational."⟩
  else
    ⟨200, .statusMessage "initializing"
      "RAG system is currently loading knowledge base and embeddings. Please wait."⟩

/-- Full dispatch of one request: the `before_request` hook first, then the
route handler. -/
def handle_request (rag_system_ready : Bool) (answerFn : String → String)
    (req : HttpRequest) : HttpResponse :=
  match check_rag_status rag_system_ready with
  | some resp => resp
  | none =>
      match req with
      | .askReq j q => askHandler answerFn j q
      | .statusReq => statusHandler rag_system_ready

/-! ## Decimal decoding: injectivity of `Nat.repr`, for uniqueness of
positional chunk ids. -/

def decodeDigit (c : Char) : Nat := c.toNat - 48

def decodeDigits (l : List Char) : Nat :=
  l.foldl (fun a c => 10 * a + decodeDigit c) 0

/-! ## Helper lemmas -/

lemma digitChar_toNat (d : Nat) (h : d < 10) : (Nat.digitChar d).toNat = 48 + d := by
  interval_cases d <;> rfl

lemma toDigitsCore_decode (fuel : Nat) :
    ∀ (n : Nat), n < 10 ^ fuel → ∀ (ds : List Char),
      (Nat.toDigitsCore 10 fuel n ds).foldl (fun a c => 10 * a + decodeDigit c) 0
        = ds.foldl (fun a c => 10 * a + decodeDigit c) n := by
  induction fuel with
  | zero =>
      intro n hn ds
      interval_cases n
      rfl
  | succ fuel ih =>
      intro n hn ds
      simp only [Nat.toDigitsCore]
      split
      · next hdiv =>
          have hn10 : n < 10 := by omega
          rw [List.foldl_cons, Nat.mod_eq_of_lt hn10]
          have hstep : 10 * 0 + decodeDigit (Nat.digitChar n) = n := by
            simp [decodeDigit, digitChar_toNat n hn10]
          rw [hstep]
      · next hdiv =>
          have hbound : n / 10 < 10 ^ fuel := by
            rw [Nat.div_lt_iff_lt_mul (by norm_num : 0 < 10)]
            calc n < 10 ^ (fuel + 1) := hn
            _ = 10 ^ fuel * 10 := by ring
          rw [ih (n / 10) hbound, List.foldl_cons]
          have hlt : n % 10 < 10 := Nat.mod_lt _ (by norm_num)
          have hstep : 10 * (n / 10) + decodeDigit (Nat.digitChar (n % 10)) = n := by
            simp [decodeDigit, digitChar_toNat _ hlt]
            omega
          rw [hstep]

lemma decodeDigits_repr (n : Nat) : decodeDigits (Nat.repr n).data = n := by
  have hn : n < 10 ^ (n + 1) :=
    lt_of_lt_of_le (Nat.lt_pow_self (by norm_num) n)
      (Nat.pow_le_pow_right (by norm_num) (Nat.le_succ n))
  have h := toDigitsCore_decode (n + 1) n hn []
  simpa [decodeDigits, Nat.repr, Nat.toDigits, List.asString] using h

lemma Nat_repr_injective : Function.Injective Nat.repr := by
  intro m n h
  have h2 := congrArg (fun s => decodeDigits s.data) h
  simpa [decodeDigits_repr] using h2

lemma doc_id_injective : Function.Injective (fun i : Nat => "doc_" ++ Nat.repr i) := by
  intro m n h
  apply Nat_repr_injective
  have h2 := congrArg String.data h
  simp only [String.data_append] at h2
  exact String.ext (List.append_cancel_left h2)

lemma chunkIds_nodup (document_chunks : List String) :
    (chunkIds document_chunks).Nodup :=
  (List.nodup_range _).map doc_id_injective

lemma indexStep_of_count_ne (document_chunks : List String) (c : Collection)
    (h : c.count ≠ 0) : indexStep document_chunks c = c := by
  simp [indexStep, h]

lemma ask_rag_question_ok_eq (generate : String → Except String String)
    (queryRes : List (List String)) (query : String) :
    ask_rag_question generate (Except.ok queryRes) query =
      (match generate (buildPrompt (ragContext (firstQueryDocuments queryRes)) query) with
       | .ok text => .ok text
       | .error _ => .ok apologyMessage) := rfl

/-! ## Claim theorems -/

/-- C1 counterexample: an exception in the retrieval step (the
`collection.query` call, covering the embedding provider and the store at
query time) is not caught anywhere in `ask_rag_question` — only the
generation call sits inside the `try` — so it propagates past the pipeline
boundary instead of yielding empty results, even though generation itself
would succeed. -/
theorem ask_rag_question_raises_on_retrieval_error :
    ask_rag_question (fun _ => Except.ok "a fine answer")
      (Except.error "embedding provider failure") "Who proposes to Elizabeth first?"
      = Except.error "embedding provider failure" := rfl

/-- C1 (amended): once the system is ready, whenever the retrieval query
itself does not raise, `ask_rag_question` returns a string and never raises:
the result is the model text returned unmodified by the generation call, or
the fixed apology string when generation raises.  (A retrieval-step
exception, by contrast, propagates out of the function.) -/
theorem ask_rag_question_total_when_retrieval_ok
    (generate : String → Except String String)
    (queryRes : List (List String)) (query : String) :
    ∃ text, ask_rag_question generate (Except.ok queryRes) query = Except.ok text ∧
      (generate (buildPrompt (ragContext (firstQueryDocuments queryRes)) query)
          = Except.ok text ∨ text = apologyMessage) := by
  rw [ask_rag_question_ok_eq]
  cases hg : generate (buildPrompt (ragContext (firstQueryDocuments queryRes)) query) with
  | ok t => exact ⟨t, by simp, Or.inl rfl⟩
  | error e => exact ⟨apologyMessage, by simp, Or.inr rfl⟩

/-- C2: if the generation call raises, `ask_rag_question` swallows the
exception and returns exactly the fixed apology string; in particular a
generation adapter that always fails always produces that string. -/
theorem generation_failure_returns_apology
    (generate : String → Except String String)
    (hfail : ∀ p, ∃ e, generate p = Except.error e)
    (queryRes : List (List String)) (query : String) :
    ask_rag_question generate (Except.ok queryRes) query = Except.ok apologyMessage := by
  obtain ⟨e, he⟩ := hfail (buildPrompt (ragContext (firstQueryDocuments queryRes)) query)
  rw [ask_rag_question_ok_eq, he]

/-- C2 witness: a concrete always-failing generation adapter yields exactly
the apology string. -/
theorem generation_failure_returns_apology_witness :
    ask_rag_question (fun _ => Except.error "quota exceeded")
      (Except.ok [["some retrieved chunk"]]) "Who proposes to Elizabeth first?"
      = Except.ok apologyMessage :=
  generation_failure_returns_apology (fun _ => Except.error "quota exceeded")
    (fun _ => ⟨"quota exceeded", rfl⟩) [["some retrieved chunk"]]
    "Who proposes to Elizabeth first?"

/-- C3: the indexing step runs only when the collection count is zero (a
non-zero collection is returned untouched), running it twice gives the same
collection (hence the same chunk count) as running it once, and the
positional ids `doc_0, doc_1, ...` are pairwise distinct. -/
theorem indexStep_idempotent (document_chunks : List String) (collection : Collection) :
    (collection.count ≠ 0 → indexStep document_chunks collection = collection) ∧
    indexStep document_chunks (indexStep document_chunks collection)
      = indexStep document_chunks collection ∧
    (chunkIds document_chunks).Nodup := by
  refine ⟨fun h => indexStep_of_count_ne document_chunks collection h, ?_,
    chunkIds_nodup document_chunks⟩
  by_cases h : collection.count = 0
  · cases hdc : document_chunks with
    | nil =>
        have hid : indexStep [] collection = collection := by simp [indexStep]
        rw [hid]
        exact hid
    | cons a l =>
        have hstep : indexStep (a :: l) collection
            = collection.add (a :: l) (chunkIds (a :: l)) := by
          simp [indexStep, h]
        rw [hstep]
        apply indexStep_of_count_ne
        have h0 : collection.docs.length = 0 := by simpa [Collection.count] using h
        simp [Collection.add, Collection.count, chunkIds, h0]
  · rw [indexStep_of_count_ne _ _ h, indexStep_of_count_ne _ _ h]

/-- C3 witness: on a concrete non-empty collection the indexing step is a
no-op. -/
theorem indexStep_idempotent_witness :
    indexStep ["alpha chunk"] ⟨[("doc_0", "stored chunk")]⟩
      = ⟨[("doc_0", "stored chunk")]⟩ :=
  (indexStep_idempotent ["alpha chunk"] ⟨[("doc_0", "stored chunk")]⟩).1 (by decide)

/-- C4 counterexample: when the retrieval result is empty the variable
`context` is the empty string, not the literal placeholder sentence — the
placeholder is substituted only inside the prompt template. -/
theorem ragContext_empty_not_literal :
    ragContext [] = "" ∧ ragContext [] ≠ noContextMessage := by
  constructor
  · rfl
  · decide

/-- C4 (amended): the prompt embeds the newline join of the retrieved chunk
texts, in order, whenever that join is non-empty; when the retrieval result
is empty the variable `context` is the empty string (not the placeholder)
and the prompt context slot then holds the literal placeholder sentence. -/
theorem prompt_context_slot (retrieved_docs : List String) (query : String) :
    (retrieved_docs = [] → ragContext retrieved_docs = "" ∧
      buildPrompt (ragContext retrieved_docs) query
        = promptHead ++ noContextMessage ++ promptMid ++ query ++ promptTail) ∧
    (ragContext retrieved_docs ≠ "" →
      ragContext retrieved_docs = String.intercalate "\n" retrieved_docs ∧
      buildPrompt (ragContext retrieved_docs) query
        = promptHead ++ String.intercalate "\n" retrieved_docs
            ++ promptMid ++ query ++ promptTail) := by
  constructor
  · rintro rfl
    exact ⟨rfl, by simp [buildPrompt, ragContext]⟩
  · intro h
    have hctx : ragContext retrieved_docs = String.intercalate "\n" retrieved_docs := by
      cases retrieved_docs with
      | nil => exact absurd rfl h
      | cons a l => simp [ragContext]
    refine ⟨hctx, ?_⟩
    simp only [buildPrompt]
    rw [if_neg h, hctx]

/-- C4 witness: with an empty retrieval the context variable is empty and
the prompt slot, at a concrete query, holds the placeholder. -/
theorem prompt_context_slot_witness :
    ragContext [] = "" ∧
    buildPrompt (ragContext []) "Where did Alice go?"
      = promptHead ++ noContextMessage ++ promptMid ++ "Where did Alice go?" ++ promptTail :=
  (prompt_context_slot [] "Where did Alice go?").1 rfl

/-- C5: evaluating the dispatch at the failing input: a GET /status request
while the readiness flag is down is intercepted by the `before_request`
hook and answered with the 503 message-only body, so the status handler —
which in that very state would produce a body with the status field
"initializing" — is never reached; it is reached only once ready. -/
theorem status_blocked_when_not_ready :
    handle_request false (fun _ => "") HttpRequest.statusReq
      = ⟨503, ResponseBody.messageOnly
          "RAG system is initializing. Please try again in a moment."⟩ ∧
    statusHandler false
      = ⟨200, ResponseBody.statusMessage "initializing"
          "RAG system is currently loading knowledge base and embeddings. Please wait."⟩ ∧
    handle_request true (fun _ => "") HttpRequest.statusReq
      = ⟨200, ResponseBody.statusMessage "ready"
          "RAG system is fully initialized and operational."⟩ :=
  ⟨rfl, rfl, rfl⟩

lemma serverStep_ready_mono {s s2 : ServerState} (h : ServerStep s s2)
    (hr : s.rag_system_ready = true) : s2.rag_system_ready = true := by
  cases h <;> simp_all

/-- C6: readiness is monotone: along any sequence of steps of the server
model, once `rag_system_ready` is true it stays true — no step of the
system ever resets the flag. -/
theorem ready_monotone (s s2 : ServerState)
    (hsteps : Relation.ReflTransGen ServerStep s s2)
    (hready : s.rag_system_ready = true) : s2.rag_system_ready = true := by
  induction hsteps with
  | refl => exact hready
  | tail _ hstep ih => exact serverStep_ready_mono hstep ih

/-- C6 witness: a concrete ready state stepped by a request-serving step is
still ready. -/
theorem ready_monotone_witness :
    (⟨true, none, 1, [], false⟩ : ServerState).rag_system_ready = true :=
  ready_monotone ⟨true, none, 1, [], false⟩ ⟨true, none, 1, [], false⟩
    (Relation.ReflTransGen.single (ServerStep.serve ⟨true, none, 1, [], false⟩ rfl rfl))
    rfl

def ServerInv (s : ServerState) : Prop :=
  s.initCount ≤ 1 ∧ (s.rag_system_ready = true ↔ s.initCount = 1) ∧
    (TPC.done ∈ s.threads → s.rag_system_ready = true)

lemma serverInv_init : ServerInv serverInit := by
  refine ⟨by simp [serverInit], by simp [serverInit], ?_⟩
  intro hm
  simp [serverInit] at hm

lemma serverInv_step {s s2 : ServerState} (h : ServerStep s s2) (hi : ServerInv s) :
    ServerInv s2 := by
  obtain ⟨h1, h2, h3⟩ := hi
  cases h with
  | spawn hr hex =>
      refine ⟨h1, h2, ?_⟩
      intro hm
      rcases List.mem_append.mp hm with hm | hm
      · exact h3 hm
      · simp at hm
  | acquire t ha hb hex =>
      refine ⟨h1, h2, ?_⟩
      intro hm
      rcases List.mem_or_eq_of_mem_set hm with hm | hm
      · exact h3 hm
      · simp at hm
  | runInit t ha hb hc hex =>
      have hready0 : ¬s.rag_system_ready = true := by simp [hc]
      have hne : s.initCount ≠ 1 := fun he => hready0 (h2.mpr he)
      have hc0 : s.initCount = 0 := by omega
      exact ⟨by simp [hc0], by simp [hc0], fun _ => rfl⟩
  | runInitFail t ha hb hc hex =>
      exact ⟨h1, h2, h3⟩
  | skipInit t ha hb hc hex =>
      have hcount := h2.mp hc
      exact ⟨h1, by simp [hcount], fun _ => rfl⟩
  | serve hr hex =>
      exact ⟨h1, h2, h3⟩

lemma serverInv_reachable {s : ServerState} (h : ServerReachable s) : ServerInv s := by
  induction h with
  | refl => exact serverInv_init
  | tail _ hstep ih => exact serverInv_step hstep ih

/-- C7: mutual exclusion of initialization: in every state reachable from
process start — under any number of concurrently spawned initialization
triggers — the lock-and-flag-guarded body has executed at most once, and
as soon as any trigger has run to completion it has executed exactly
once. -/
theorem init_mutual_exclusion (s : ServerState) (h : ServerReachable s) :
    s.initCount ≤ 1 ∧ (TPC.done ∈ s.threads → s.initCount = 1) := by
  obtain ⟨h1, h2, h3⟩ := serverInv_reachable h
  exact ⟨h1, fun hm => h2.mp (h3 hm)⟩

/-- C7 witness: a concrete trace — spawn a trigger, acquire the lock, run
the guarded initialization — reaches a completed state whose execution
count is exactly one. -/
theorem init_mutual_exclusion_witness :
    (⟨true, none, 1, [TPC.done], false⟩ : ServerState).initCount = 1 := by
  have s1 : ServerReachable ⟨false, none, 0, [TPC.start], false⟩ :=
    Relation.ReflTransGen.refl.tail (ServerStep.spawn serverInit rfl rfl)
  have s2 : ServerReachable ⟨false, some 0, 0, [TPC.inLock], false⟩ :=
    s1.tail (ServerStep.acquire ⟨false, none, 0, [TPC.start], false⟩ 0 rfl rfl rfl)
  have s3 : ServerReachable ⟨true, none, 1, [TPC.done], false⟩ :=
    s2.tail (ServerStep.runInit ⟨false, some 0, 0, [TPC.inLock], false⟩ 0 rfl rfl rfl rfl)
  exact (init_mutual_exclusion _ s3).2 (by decide)

/-- C8: when the collection acquisition fails during initialization, the
routine ends in `os._exit(1)` — process termination with exit code 1 — and
the readiness flag is still false on that path. -/
theorem init_failure_exits (e : String) :
    initialize_rag_system false (Except.error e) = InitResult.processExit 1 false := rfl

/-- C9: both module-level handles are cached singletons: re-calling either
accessor on the post-call cache returns the identical handle and the
identical cache (regardless of the store or corpus parameters, so storage
is not re-opened and the zero-count decision is not re-evaluated); the init
counters advance only on a cache miss, and a cache hit is a complete
no-op. -/
theorem cached_singletons (openStore openStore2 : Unit → Collection)
    (document_chunks document_chunks2 : List String) (s : AppCache) :
    (get_chroma_collection openStore2 document_chunks2
        (get_chroma_collection openStore document_chunks s).2
      = ((get_chroma_collection openStore document_chunks s).1,
         (get_chroma_collection openStore document_chunks s).2)) ∧
    (get_gemini_model (get_gemini_model s).2
      = ((get_gemini_model s).1, (get_gemini_model s).2)) ∧
    (s.chromaCollection = none →
      (get_chroma_collection openStore document_chunks s).2.chromaInits
        = s.chromaInits + 1) ∧
    (∀ c, s.chromaCollection = some c →
      get_chroma_collection openStore document_chunks s = (c, s)) ∧
    (s.geminiModel = none → (get_gemini_model s).2.modelInits = s.modelInits + 1) ∧
    (∀ m, s.geminiModel = some m → get_gemini_model s = (m, s)) := by
  refine ⟨?_, ?_, ?_, ?_, ?_, ?_⟩
  · cases hsc : s.chromaCollection with
    | some c => simp [get_chroma_collection, hsc]
    | none => simp [get_chroma_collection, hsc]
  · cases hsm : s.geminiModel with
    | some m => simp [get_gemini_model, hsm]
    | none => simp [get_gemini_model, hsm]
  · intro hsc
    simp [get_chroma_collection, hsc]
  · intro c hsc
    simp [get_chroma_collection, hsc]
  · intro hsm
    simp [get_gemini_model, hsm]
  · intro m hsm
    simp [get_gemini_model, hsm]

/-- C9 witness: from the empty cache, one call executes the initialization
branch exactly once (the counter moves from 0 to 1). -/
theorem cached_singletons_witness :
    (get_chroma_collection (fun _ => ⟨[]⟩) ["chunk zero"]
        ⟨none, none, 0, 0⟩).2.chromaInits = 0 + 1 :=
  (cached_singletons (fun _ => ⟨[]⟩) (fun _ => ⟨[]⟩) ["chunk zero"] ["chunk zero"]
    ⟨none, none, 0, 0⟩).2.2.1 rfl

/-- C10: the answer path never mutates the collection: a single
state-threaded `ask_rag_question` call returns the collection unchanged,
and so does any sequence of answer calls, so contents and chunk count stay
exactly as the one-time initialization left them. -/
theorem answer_path_readonly
    (oracle : String → Nat → List (String × String) → List (List String))
    (generate : String → Except String String) (query : String)
    (queries : List String) (c : Collection) :
    (ask_rag_question_state oracle generate query c).2 = c ∧
    serve_queries oracle generate queries c = c ∧
    (serve_queries oracle generate queries c).count = c.count := by
  have h2 : serve_queries oracle generate queries c = c := by
    induction queries generalizing c with
    | nil => rfl
    | cons q qs ih => exact ih ((ask_rag_question_state oracle generate q c).2)
  exact ⟨rfl, h2, by rw [h2]⟩

end RagApp
